import Mathlib

/-!
Shallow embedding of the inventory dashboard's data-access and aggregation
layer (source file `baza.py`): the two entity tables, the in-memory join of
products to categories, the dashboard aggregates, the pie-chart share data,
and the CRUD operations with their UI submit flows and the read cache.

Numeric columns (`cena`, `wartosc`) are modelled as rationals; `liczba` and
ids as integers.  Python `int(x)` truncation toward zero is modelled by
`pyInt`; Python `x or 0` on an optional numeric field by `Option.getD _ 0`
(both send `none` and `0` to `0`).
-/

set_option autoImplicit false

/-- A row of the `kategorie` table as fetched by
`select("id,nazwa,opis").order("id")`: `id INTEGER PRIMARY KEY`,
`nazwa TEXT NOT NULL`, `opis TEXT NULL`. -/
structure Kategoria where
  id : Int
  nazwa : String
  opis : Option String
deriving Repr, DecidableEq

/-- A raw row of the `produkty` table as fetched by
`select("id,nazwa,liczba,cena,kategoria_id").order("id")`.  Every field is
optional here because `fetch_produkty_join` reads each one with `dict.get`,
which yields `None` for a missing key. -/
structure ProduktRow where
  id : Option Int
  nazwa : Option String
  liczba : Option Int
  cena : Option ℚ
  kategoria_id : Option Int
deriving Repr, DecidableEq

/-- A derived row built by `fetch_produkty_join`: the product fields plus the
joined category name (`kategoria`) and the line value (`wartosc`). -/
structure JoinedRow where
  id : Option Int
  nazwa : Option String
  liczba : Int
  cena : ℚ
  kategoria : Option String
  wartosc : ℚ
deriving Repr, DecidableEq

/-- Python `int(q)` on a numeric value: truncation toward zero.  A rational
is stored with positive denominator, so `Int.div` (T-division) truncates
toward zero exactly as Python does. -/
def pyInt (q : ℚ) : Int :=
  q.num.tdiv q.den

/-- Python `s.strip()`: drop leading and trailing whitespace.  (Defined over
the character list so that it evaluates structurally.) -/
def pyStrip (s : String) : String :=
  ⟨((s.data.dropWhile Char.isWhitespace).reverse.dropWhile Char.isWhitespace).reverse⟩

/-- The dictionary `kat_map = {k["id"]: k.get("nazwa") for k in kats}` read at
key `kid`, where `kat_map.get(...)` yields `None` for an absent or `None`
key.  A dict comprehension keeps the LAST binding of a duplicated key, hence
the `find?` on the reversed list. -/
def katMapGet (kats : List Kategoria) (kid : Option Int) : Option String :=
  match kid with
  | none => none
  | some k => (kats.reverse.find? (fun c => c.id == k)).map (fun c => c.nazwa)

/-- The body of the row loop of `fetch_produkty_join`: missing/`None`
`liczba` and `cena` are replaced by `0` (`p.get(...) or 0`), the category
name is looked up in `kat_map`, and `wartosc = float(liczba) * float(cena)`. -/
def mkJoined (kats : List Kategoria) (p : ProduktRow) : JoinedRow :=
  let liczba : Int := p.liczba.getD 0
  let cena : ℚ := p.cena.getD 0
  { id := p.id
    nazwa := p.nazwa
    liczba := liczba
    cena := cena
    kategoria := katMapGet kats p.kategoria_id
    wartosc := (liczba : ℚ) * cena }

/-- `fetch_produkty_join` (lines 70-91 of `baza.py`): one derived row per
fetched product row, in the products' read order. -/
def fetch_produkty_join (kats : List Kategoria) (prods : List ProduktRow) : List JoinedRow :=
  prods.map (mkJoined kats)

/-- The dashboard metrics block (lines 173-181 of `baza.py`): on an empty
frame all three metrics are zero, otherwise total value is the sum of
`wartosc`, total items the sum of `liczba`, and the low-stock count the
number of rows with `liczba <= limit`. -/
def dashboard_metrics (rows : List JoinedRow) (limit : Int) : ℚ × Int × Nat :=
  if rows.isEmpty then (0, 0, 0)
  else ((rows.map (fun r => r.wartosc)).sum,
        (rows.map (fun r => r.liczba)).sum,
        (rows.filter (fun r => decide (r.liczba ≤ limit))).length)

/-- `df_plot["kategoria"].fillna("Brak kategorii")` applied to one row: the
category name with `None` replaced by the sentinel label. -/
def fill_kategoria (r : JoinedRow) : String :=
  r.kategoria.getD "Brak kategorii"

/-- The value attributed to one pie slice: the pie renderer sums the
`wartosc` of all rows sharing one (filled) category name. -/
def category_value_shares (rows : List JoinedRow) (name : String) : ℚ :=
  ((rows.filter (fun r => fill_kategoria r == name)).map (fun r => r.wartosc)).sum

/-- The distinct slice names of the pie, in first-appearance order. -/
def pie_names (rows : List JoinedRow) : List String :=
  (rows.map fill_kategoria).dedup

/-- The dashboard pie block (lines 191-199 of `baza.py`): the share data is
computed only under the guard `not df.empty and df["wartosc"].sum() > 0`;
otherwise the empty-state indicator (`none`) is shown. -/
def dashboard_pie (rows : List JoinedRow) : Option (List (String × ℚ)) :=
  if !rows.isEmpty && decide (0 < (rows.map (fun r => r.wartosc)).sum) then
    some ((pie_names rows).map (fun n => (n, category_value_shares rows n)))
  else none

/-- Outcome of a storage call that can raise: either the foreign-key
violation the schema's `REFERENCES kategorie(id)` constraint produces, or a
generic infrastructure failure (storage unreachable/erroring). -/
inductive StorageErr where
  | fkViolation
  | unavailable
deriving Repr, DecidableEq

/-- The response object of a successful `execute()`: its `data` attribute may
be a list of rows or `None`. -/
structure SupabaseResp (α : Type) where
  data : Option (List α)
deriving Repr, DecidableEq

/-- `fetch_kategorie` (lines 58-61 of `baza.py`) as a function of the storage
call's outcome: an exception from `execute()` propagates (there is no
try/except around it); on success the rows are `resp.data or []`. -/
def fetch_kategorie (resp : Except StorageErr (SupabaseResp Kategoria)) :
    Except StorageErr (List Kategoria) :=
  match resp with
  | .error e => .error e
  | .ok r => .ok (r.data.getD [])

/-- `fetch_produkty_raw` (lines 64-67 of `baza.py`), same shape as
`fetch_kategorie`. -/
def fetch_produkty_raw (resp : Except StorageErr (SupabaseResp ProduktRow)) :
    Except StorageErr (List ProduktRow) :=
  match resp with
  | .error e => .error e
  | .ok r => .ok (r.data.getD [])

/-- A persisted row of the `produkty` table as the insert/update paths write
it: `liczba` and `cena` are NOT NULL, `kategoria_id` is nullable. -/
structure DBProdukt where
  id : Int
  nazwa : String
  liczba : Int
  cena : ℚ
  kategoria_id : Option Int
deriving Repr, DecidableEq

/-- The persistent store: the two tables plus the id sequences the storage
backend uses to assign fresh primary keys on insert. -/
structure DB where
  kategorie : List Kategoria
  produkty : List DBProdukt
  nextKatId : Int
  nextProdId : Int
deriving Repr, DecidableEq

/-- `add_kategoria` (lines 94-95 of `baza.py`): inserts a row; the id is
assigned by storage.  The function itself performs no validation. -/
def add_kategoria (nazwa : String) (opis : Option String) (db : DB) : DB :=
  { db with
    kategorie := db.kategorie ++ [⟨db.nextKatId, nazwa, opis⟩]
    nextKatId := db.nextKatId + 1 }

/-- `add_produkt` (lines 98-106 of `baza.py`): inserts a row with
`int(liczba)`, `float(cena)` and `int(kategoria_id) if kategoria_id is not
None else None`.  No sign check is performed. -/
def add_produkt (nazwa : String) (liczba : ℚ) (cena : ℚ) (kategoria_id : Option Int)
    (db : DB) : DB :=
  { db with
    produkty := db.produkty ++ [⟨db.nextProdId, nazwa, pyInt liczba, cena, kategoria_id⟩]
    nextProdId := db.nextProdId + 1 }

/-- `update_produkt` (lines 109-117 of `baza.py`): an `update ... eq("id", x)`
statement overwrites every field of each row whose id matches the filter.  A
filter matching no row updates nothing and the storage call succeeds (the
client raises only on infrastructure failures, not on an empty match). -/
def update_produkt (prod_id : Int) (nazwa : String) (liczba : ℚ) (cena : ℚ)
    (kategoria_id : Option Int) (db : DB) : DB :=
  { db with
    produkty := db.produkty.map (fun p =>
      if p.id == prod_id then ⟨p.id, nazwa, pyInt liczba, cena, kategoria_id⟩ else p) }

/-- `delete_produkt` (lines 120-121 of `baza.py`): a `delete ... eq("id", x)`
statement; a products row has no dependents, so this never violates a
constraint, and an absent id deletes nothing. -/
def delete_produkt (prod_id : Int) (db : DB) : DB :=
  { db with produkty := db.produkty.filter (fun p => !(p.id == prod_id)) }

/-- `delete_kategoria` (lines 124-125 of `baza.py`).  Modelled from the spec:
the foreign-key constraint `kategoria_id INTEGER NULL REFERENCES
kategorie(id)` of §6 is enforced by the storage backend, not by code under
`src/` — deleting a category row that some product still references makes the
storage call raise a foreign-key violation; deleting an unreferenced (or
absent) id succeeds and removes the matching row. -/
def delete_kategoria (kat_id : Int) (db : DB) : Except StorageErr DB :=
  if db.kategorie.any (fun k => k.id == kat_id)
      && db.produkty.any (fun p => p.kategoria_id == some kat_id) then
    .error .fkViolation
  else
    .ok { db with kategorie := db.kategorie.filter (fun k => !(k.id == kat_id)) }

/-- What the category tab of the `Usuń Element` view displays. -/
inductive DeleteKatMsg where
  | success
  | remediation
deriving Repr, DecidableEq

/-- The try/except of the category tab (lines 331-338 of `baza.py`): success
shows a success message; EVERY exception — it catches bare `Exception` — is
shown as the same remediation message about dependent products. -/
def usun_kategoria_msg (result : Except StorageErr DB) : DeleteKatMsg :=
  match result with
  | .ok _ => .success
  | .error _ => .remediation

/-- A rejected form input: the only validation the submit handlers perform is
the non-blank name check. -/
inductive ValidationError where
  | emptyName
deriving Repr, DecidableEq

/-- The `Dodaj Kategorię` submit handler (lines 274-280 of `baza.py`): a
blank (empty or whitespace-only) name is rejected with a warning and nothing
is persisted; otherwise `add_kategoria(nazwa.strip(), opis.strip() if opis
else None)` runs.  Returns the resulting store and the validation outcome. -/
def submit_kategoria (nazwa : String) (opis : String) (db : DB) :
    DB × Option ValidationError :=
  if (pyStrip nazwa) = "" then (db, some .emptyName)
  else (add_kategoria (pyStrip nazwa) (if opis = "" then none else some (pyStrip opis)) db, none)

/-- The inner `Dodaj Produkt` submit handler (lines 298-304 of `baza.py`),
reached only when categories exist and a category is selected: a blank name
is rejected with a warning and nothing is persisted; otherwise
`add_produkt(nazwa.strip(), liczba, cena, kat_options[kat_name])` runs. -/
def submit_produkt (nazwa : String) (liczba : ℚ) (cena : ℚ) (kat_id : Int) (db : DB) :
    DB × Option ValidationError :=
  if (pyStrip nazwa) = "" then (db, some .emptyName)
  else (add_produkt (pyStrip nazwa) liczba cena (some kat_id) db, none)

/-- The dictionary `kat_options = {k["nazwa"]: k["id"] for k in kategorie}`
read at a name (last binding of a duplicated name wins). -/
def kat_options_get (kategorie : List Kategoria) (name : String) : Option Int :=
  (kategorie.reverse.find? (fun k => k.nazwa == name)).map (fun k => k.id)

/-- Outcome of the `Dodaj Produkt` view. -/
inductive AddProduktView where
  | noCategories
  | emptyNameWarning
  | keyError
  | added (db : DB)
deriving Repr, DecidableEq

/-- The `Dodaj Produkt` view (lines 285-304 of `baza.py`): with no categories
it shows "Najpierw dodaj kategorię!" and renders no form at all; otherwise a
blank name only warns, and a valid submit inserts the product with the id of
the category selected by name (`keyError` marks the dictionary miss that the
selectbox, whose options are exactly the dictionary's keys, makes
unreachable). -/
def dodaj_produkt_view (kategorie : List Kategoria) (nazwa : String) (liczba : ℚ)
    (cena : ℚ) (kat_name : String) (db : DB) : AddProduktView :=
  if kategorie.isEmpty then .noCategories
  else if (pyStrip nazwa) = "" then .emptyNameWarning
  else
    match kat_options_get kategorie kat_name with
    | none => .keyError
    | some kid => .added (add_produkt (pyStrip nazwa) liczba cena (some kid) db)

/-- The application state seen by one actor: the store plus the
`st.cache_data` read cache holding the two fetched tables when warm. -/
structure AppState where
  db : DB
  cache : Option (List Kategoria × List DBProdukt)
deriving Repr, DecidableEq

/-- A read through `st.cache_data`: a warm cache is served as-is; a cold one
is filled from the store. -/
def cached_read (s : AppState) : (List Kategoria × List DBProdukt) × AppState :=
  match s.cache with
  | some snap => (snap, s)
  | none =>
    let snap := (s.db.kategorie, s.db.produkty)
    (snap, { s with cache := some snap })

/-- `refresh` (lines 128-130 of `baza.py`): `st.cache_data.clear()` empties
the whole read cache (the rerun is the caller's re-render). -/
def refresh (s : AppState) : AppState :=
  { s with cache := none }

/-- The five mutating UI flows. -/
inductive MutAction where
  | addKat (nazwa : String) (opis : String)
  | addProd (nazwa : String) (liczba : ℚ) (cena : ℚ) (kat_id : Int)
  | updateProd (id : Int) (nazwa : String) (liczba : ℚ) (cena : ℚ) (kat_id : Option Int)
  | delProd (id : Int)
  | delKat (id : Int)

/-- One mutating UI step, exactly as each view wires it: the mutation runs
and, on success, `refresh()` is called; a rejected form (blank name) or a
caught delete exception performs no mutation and no refresh (`none`). -/
def mutation_step (a : MutAction) (s : AppState) : Option AppState :=
  match a with
  | .addKat n o =>
    match submit_kategoria n o s.db with
    | (_, some _) => none
    | (db2, none) => some (refresh { s with db := db2 })
  | .addProd n l c kid =>
    match submit_produkt n l c kid s.db with
    | (_, some _) => none
    | (db2, none) => some (refresh { s with db := db2 })
  | .updateProd i n l c kid =>
    if (pyStrip n) = "" then none
    else some (refresh { s with db := update_produkt i (pyStrip n) l c kid s.db })
  | .delProd i => some (refresh { s with db := delete_produkt i s.db })
  | .delKat i =>
    match delete_kategoria i s.db with
    | .ok db2 => some (refresh { s with db := db2 })
    | .error _ => none

/-- The §8 example categories. -/
def kats_ex : List Kategoria :=
  [⟨1, "A", none⟩, ⟨2, "B", none⟩]

/-- The §8 example products. -/
def prods_ex : List ProduktRow :=
  [⟨some 1, some "x", some 3, some 2, some 1⟩,
   ⟨some 2, some "y", some 0, some 5, none⟩]

/-- The §8 example joined rows. -/
def rows_ex : List JoinedRow :=
  fetch_produkty_join kats_ex prods_ex

example : rows_ex.map (fun r => (r.kategoria, r.wartosc)) = [(some "A", 6), (none, 0)] := by
  simp [rows_ex, fetch_produkty_join, mkJoined, katMapGet, kats_ex, prods_ex]
  norm_num

example : dashboard_metrics rows_ex 5 = (6, 3, 2) := by
  simp [dashboard_metrics, rows_ex, fetch_produkty_join, mkJoined, katMapGet, kats_ex, prods_ex]
  norm_num

/-- The category-name lookup done by `mkJoined` finds the unique matching
category: helper for the claim about `fetch_produkty_join`. -/
theorem katMapGet_eq_of_mem (kats : List Kategoria) (k : Int) (c : Kategoria)
    (hids : (kats.map (fun x => x.id)).Nodup) (hc : c ∈ kats) (hk : c.id = k) :
    katMapGet kats (some k) = some c.nazwa := by
  have hsome : (kats.reverse.find? (fun x => x.id == k)).isSome := by
    rw [List.find?_isSome]
    exact ⟨c, List.mem_reverse.2 hc, by simp [hk]⟩
  obtain ⟨d, hd⟩ := Option.isSome_iff_exists.1 hsome
  have hdmem : d ∈ kats := List.mem_reverse.1 (List.mem_of_find?_eq_some hd)
  have hdk : d.id = k := by
    have := List.find?_some hd
    simpa using this
  have hdc : d = c := List.inj_on_of_nodup_map hids hdmem hc (by rw [hdk, hk])
  simp [katMapGet, hd, hdc]

/-- C1: `fetch_produkty_join` returns one derived row per product, in the
products' read order (row `i` comes from product `i`, and the id column is
carried through unchanged); each row's `kategoria` is the name of the unique
category whose id equals the product's `kategoria_id` (or `none` when that
field is unset or matches no category); `wartosc` is quantity times unit
price with missing/`None` quantity or price read as zero; and on the §8
example the rows are (category "A", value 6) then (category `none`, value 0)
in that order. -/
theorem C1_fetch_produkty_join_spec (kats : List Kategoria) (prods : List ProduktRow)
    (hids : (kats.map (fun x => x.id)).Nodup) :
    (fetch_produkty_join kats prods).length = prods.length
    ∧ (fetch_produkty_join kats prods).map (fun r => r.id) = prods.map (fun p => p.id)
    ∧ (∀ i : Nat, (fetch_produkty_join kats prods)[i]? = (prods[i]?).map (mkJoined kats))
    ∧ (∀ p : ProduktRow,
        (mkJoined kats p).wartosc = ((p.liczba.getD 0 : Int) : ℚ) * p.cena.getD 0)
    ∧ (∀ p : ProduktRow, p.kategoria_id = none → (mkJoined kats p).kategoria = none)
    ∧ (∀ p : ProduktRow, ∀ k : Int, p.kategoria_id = some k →
        (∀ c ∈ kats, c.id ≠ k) → (mkJoined kats p).kategoria = none)
    ∧ (∀ p : ProduktRow, ∀ k : Int, ∀ c : Kategoria, p.kategoria_id = some k →
        c ∈ kats → c.id = k → (mkJoined kats p).kategoria = some c.nazwa)
    ∧ rows_ex.map (fun r => (r.kategoria, r.wartosc)) = [(some "A", 6), (none, 0)] := by
  refine ⟨?_, ?_, ?_, ?_, ?_, ?_, ?_, ?_⟩
  · simp [fetch_produkty_join]
  · simp only [fetch_produkty_join, List.map_map]
    rfl
  · intro i
    simp [fetch_produkty_join]
  · intro p
    rfl
  · intro p h
    simp [mkJoined, katMapGet, h]
  · intro p k hk hnone
    simp only [mkJoined, hk]
    unfold katMapGet
    have : kats.reverse.find? (fun c => c.id == k) = none := by
      rw [List.find?_eq_none]
      intro c hc
      simpa using hnone c (List.mem_reverse.1 hc)
    simp [this]
  · intro p k c hk hc hck
    simp only [mkJoined, hk]
    exact katMapGet_eq_of_mem kats k c hids hc hck
  · simp [rows_ex, fetch_produkty_join, mkJoined, katMapGet, kats_ex, prods_ex]
    norm_num

/-- Witness for C1 at the §8 example inputs. -/
theorem C1_fetch_produkty_join_spec_witness :
    (List.map (fun x => x.id) kats_ex).Nodup
    ∧ (fetch_produkty_join kats_ex prods_ex).length = prods_ex.length := by
  have h : (List.map (fun x => x.id) kats_ex).Nodup := by decide
  exact ⟨h, (C1_fetch_produkty_join_spec kats_ex prods_ex h).1⟩

/-- C2: the dashboard aggregation returns total value = sum of `wartosc`,
total quantity = sum of `liczba`, and low-stock count = number of rows with
`liczba ≤ threshold`, for every row set and threshold; on the empty row set
all three are zero; and on the §8 example rows with threshold 5 it returns
(6, 3, 2). -/
theorem C2_dashboard_metrics_spec :
    (∀ (rows : List JoinedRow) (limit : Int),
      dashboard_metrics rows limit
        = ((rows.map (fun r => r.wartosc)).sum,
           (rows.map (fun r => r.liczba)).sum,
           (rows.filter (fun r => decide (r.liczba ≤ limit))).length))
    ∧ (∀ limit : Int, dashboard_metrics [] limit = (0, 0, 0))
    ∧ dashboard_metrics rows_ex 5 = (6, 3, 2) := by
  refine ⟨?_, ?_, ?_⟩
  · intro rows limit
    cases rows with
    | nil => simp [dashboard_metrics]
    | cons r rs => simp [dashboard_metrics]
  · intro limit
    simp [dashboard_metrics]
  · simp [dashboard_metrics, rows_ex, fetch_produkty_join, mkJoined, katMapGet,
      kats_ex, prods_ex]
    norm_num

/-- Python `int()` of an integral value is that integer. -/
theorem pyInt_intCast (n : Int) : pyInt (n : ℚ) = n := by
  simp [pyInt]

/-- Python `int()` truncation preserves non-negativity. -/
theorem pyInt_nonneg (q : ℚ) (h : 0 ≤ q) : 0 ≤ pyInt q :=
  Int.tdiv_nonneg (Rat.num_nonneg.2 h) (by exact_mod_cast Nat.zero_le q.den)

/-- An empty store with fresh id sequences. -/
def db0 : DB := ⟨[], [], 1, 1⟩

/-- A store holding one product with id 1. -/
def db1 : DB := ⟨[], [⟨1, "a", 1, 1, none⟩], 1, 2⟩

/-- A store holding category 1 and a product referencing it. -/
def db_ck : DB := ⟨[⟨1, "K", none⟩], [⟨1, "p", 1, 1, some 1⟩], 2, 2⟩

/-- C3: submitting the add-category or add-product form with an empty (or
whitespace-only) name fails with the validation outcome and leaves the store
untouched (no persisted row); with a non-blank name the category flow
persists a new Category whose id is the storage-assigned next id. -/
theorem C3_submit_validation (nazwa opis : String) (liczba cena : ℚ) (kat_id : Int)
    (db : DB) :
    ((pyStrip nazwa) = "" →
      submit_kategoria nazwa opis db = (db, some ValidationError.emptyName)
      ∧ submit_produkt nazwa liczba cena kat_id db = (db, some ValidationError.emptyName))
    ∧ ((pyStrip nazwa) ≠ "" →
      submit_kategoria nazwa opis db
        = (add_kategoria (pyStrip nazwa) (if opis = "" then none else some (pyStrip opis)) db, none)
      ∧ (submit_kategoria nazwa opis db).1.kategorie
          = db.kategorie
            ++ [⟨db.nextKatId, (pyStrip nazwa), if opis = "" then none else some (pyStrip opis)⟩]
      ∧ (submit_kategoria nazwa opis db).1.nextKatId = db.nextKatId + 1) := by
  constructor
  · intro h
    constructor <;> simp [submit_kategoria, submit_produkt, h]
  · intro h
    refine ⟨?_, ?_, ?_⟩ <;> simp [submit_kategoria, add_kategoria, h]

/-- Witness for C3: the empty name is rejected without a write, and the name
"A" is persisted with the next id. -/
theorem C3_submit_validation_witness :
    submit_kategoria "" "d" db0 = (db0, some ValidationError.emptyName)
    ∧ (submit_kategoria "A" "" db0).1.kategorie = [⟨1, "A", none⟩] := by
  constructor
  · exact ((C3_submit_validation "" "d" 0 0 0 db0).1 (by decide)).1
  · have h := ((C3_submit_validation "A" "" 0 0 0 db0).2 (by decide)).2.1
    simpa [db0, show pyStrip "A" = "A" from by decide] using h

/-- C4 counterexample: the category tab's handler catches bare `Exception`,
so a generic storage failure is surfaced exactly like the foreign-key
violation — the same remediation message, with no distinction.  This refutes
the claim that the referential-integrity failure is surfaced distinctly from
generic storage errors. -/
theorem C4_counterexample :
    usun_kategoria_msg (Except.error StorageErr.unavailable)
      = usun_kategoria_msg (Except.error StorageErr.fkViolation)
    ∧ usun_kategoria_msg (Except.error StorageErr.unavailable) = DeleteKatMsg.remediation :=
  ⟨rfl, rfl⟩

/-- C4 amended: deleting a category that at least one product references
fails with the storage foreign-key violation, and deleting one that no
product references succeeds and removes exactly the matching row; but the UI
surfaces EVERY failure of the delete — foreign-key or generic — with the one
remediation message, distinguishing nothing. -/
theorem C4_delete_kategoria_amended (kat_id : Int) (db : DB) :
    ((db.kategorie.any (fun k => k.id == kat_id)) = true →
      (db.produkty.any (fun p => p.kategoria_id == some kat_id)) = true →
        delete_kategoria kat_id db = .error .fkViolation
        ∧ usun_kategoria_msg (delete_kategoria kat_id db) = .remediation)
    ∧ ((db.produkty.any (fun p => p.kategoria_id == some kat_id)) = false →
        delete_kategoria kat_id db
          = .ok { db with kategorie := db.kategorie.filter (fun k => !(k.id == kat_id)) })
    ∧ (∀ db2, delete_kategoria kat_id db = .ok db2 →
        (∀ k ∈ db2.kategorie, k.id ≠ kat_id)
        ∧ (∀ k ∈ db.kategorie, k.id ≠ kat_id → k ∈ db2.kategorie))
    ∧ (∀ e : StorageErr, usun_kategoria_msg (.error e) = .remediation) := by
  refine ⟨?_, ?_, ?_, fun e => rfl⟩
  · intro h1 h2
    constructor <;> simp [delete_kategoria, h1, h2, usun_kategoria_msg]
  · intro h2
    simp [delete_kategoria, h2]
  · intro db2 h
    unfold delete_kategoria at h
    split at h
    · exact absurd h (by simp)
    · have hdb2 : db2
          = { db with kategorie := db.kategorie.filter (fun k => !(k.id == kat_id)) } := by
        injection h with h
        exact h.symm
      subst hdb2
      constructor
      · intro k hk
        have := List.of_mem_filter hk
        simpa using this
      · intro k hk hne
        exact List.mem_filter.2 ⟨hk, by simpa using hne⟩

/-- Witness for C4: with category 1 referenced by a product the delete
fails, and deleting the unreferenced id 2 succeeds. -/
theorem C4_delete_kategoria_amended_witness :
    delete_kategoria 1 db_ck = .error .fkViolation
    ∧ delete_kategoria 2 db_ck
        = .ok { db_ck with kategorie := db_ck.kategorie.filter (fun k => !(k.id == 2)) } := by
  constructor
  · exact ((C4_delete_kategoria_amended 1 db_ck).1 (by decide) (by decide)).1
  · exact (C4_delete_kategoria_amended 2 db_ck).2.1 (by decide)

/-- C5 counterexample: `update_produkt` on the non-existent id 99 does not
fail — the embedding of lines 109-117 is a total filter-update, because the
code performs no existence check and an `update ... eq("id", 99)` matching no
row succeeds — and it returns the store unchanged.  The claim's required
NotFoundError does not occur anywhere in this path. -/
theorem C5_counterexample :
    update_produkt 99 "z" 0 0 none db1 = db1 := by
  simp [update_produkt, db1]

/-- C5 amended: `update_produkt` on an id matching no row is a silent no-op
that leaves every row unchanged (no error of any kind is raised); on an
existing id it overwrites every field of exactly the matching rows with the
new values — never a mix of old and new fields — and leaves all other rows
untouched. -/
theorem C5_update_produkt_amended (prod_id : Int) (nazwa : String) (liczba cena : ℚ)
    (kategoria_id : Option Int) (db : DB) :
    ((∀ p ∈ db.produkty, p.id ≠ prod_id) →
      update_produkt prod_id nazwa liczba cena kategoria_id db = db)
    ∧ (update_produkt prod_id nazwa liczba cena kategoria_id db).produkty.length
        = db.produkty.length
    ∧ (∀ p ∈ (update_produkt prod_id nazwa liczba cena kategoria_id db).produkty,
        p.id ≠ prod_id → p ∈ db.produkty)
    ∧ (∀ p ∈ (update_produkt prod_id nazwa liczba cena kategoria_id db).produkty,
        p.id = prod_id → p = ⟨prod_id, nazwa, pyInt liczba, cena, kategoria_id⟩)
    ∧ (∀ p ∈ db.produkty, p.id = prod_id →
        (⟨prod_id, nazwa, pyInt liczba, cena, kategoria_id⟩ : DBProdukt)
          ∈ (update_produkt prod_id nazwa liczba cena kategoria_id db).produkty) := by
  refine ⟨?_, ?_, ?_, ?_, ?_⟩
  · intro h
    have hmap : db.produkty.map (fun p =>
        if p.id == prod_id then ⟨p.id, nazwa, pyInt liczba, cena, kategoria_id⟩ else p)
        = db.produkty := by
      conv_rhs => rw [← List.map_id db.produkty]
      apply List.map_congr_left
      intro p hp
      have hne : (p.id == prod_id) = false := by simpa using h p hp
      simp [hne]
    unfold update_produkt
    rw [hmap]
  · simp [update_produkt]
  · intro p hp hne
    rw [update_produkt, List.mem_map] at hp
    obtain ⟨a, ha, hfa⟩ := hp
    by_cases hid : (a.id == prod_id) = true
    · rw [if_pos hid] at hfa
      have h2 : p.id = prod_id := by
        rw [← hfa]
        simpa using hid
      exact absurd h2 hne
    · rw [if_neg hid] at hfa
      exact hfa ▸ ha
  · intro p hp hpe
    rw [update_produkt, List.mem_map] at hp
    obtain ⟨a, ha, hfa⟩ := hp
    by_cases hid : (a.id == prod_id) = true
    · have haid : a.id = prod_id := by simpa using hid
      rw [if_pos hid] at hfa
      rw [← hfa, haid]
    · rw [if_neg hid] at hfa
      have : a.id = prod_id := by rw [← hfa] at hpe; exact hpe
      simp [this] at hid
  · intro p hp hpe
    rw [update_produkt, List.mem_map]
    refine ⟨p, hp, ?_⟩
    have hid : (p.id == prod_id) = true := by simpa using hpe
    rw [if_pos hid, hpe]

/-- Witness for C5: a missing id (99) is a successful no-op on `db1`, and
updating the present id 1 leaves the fully overwritten row in the store. -/
theorem C5_update_produkt_amended_witness :
    update_produkt 99 "z" 0 0 none db1 = db1
    ∧ (⟨1, "z", pyInt 0, 0, none⟩ : DBProdukt)
        ∈ (update_produkt 1 "z" 0 0 none db1).produkty := by
  constructor
  · exact (C5_update_produkt_amended 99 "z" 0 0 none db1).1 (by decide)
  · exact (C5_update_produkt_amended 1 "z" 0 0 none db1).2.2.2.2
      ⟨1, "a", 1, 1, none⟩ (by simp [db1]) rfl

/-- C6: the two listing reads propagate a storage failure to the caller
unmodified — an errored storage call is never returned as `.ok` of any list,
let alone the empty one — while a successful call maps only its (possibly
absent) row list to a list, with `resp.data or []` sending a genuine
"no rows" to the empty sequence. -/
theorem C6_fetch_propagation :
    (∀ e : StorageErr, fetch_kategorie (.error e) = .error e)
    ∧ (∀ e : StorageErr, fetch_produkty_raw (.error e) = .error e)
    ∧ (∀ r : SupabaseResp Kategoria, fetch_kategorie (.ok r) = .ok (r.data.getD []))
    ∧ (∀ r : SupabaseResp ProduktRow, fetch_produkty_raw (.ok r) = .ok (r.data.getD []))
    ∧ (∀ (e : StorageErr) (l : List Kategoria), fetch_kategorie (.error e) ≠ .ok l)
    ∧ (∀ (e : StorageErr) (l : List ProduktRow), fetch_produkty_raw (.error e) ≠ .ok l) := by
  refine ⟨fun e => rfl, fun e => rfl, fun r => rfl, fun r => rfl, ?_, ?_⟩ <;>
    intro e l h <;> simp [fetch_kategorie, fetch_produkty_raw] at h

/-- Witness for C6 at concrete outcomes: a failure propagates, an absent row
list reads as empty, and the failed read is not the empty list. -/
theorem C6_fetch_propagation_witness :
    fetch_kategorie (.error .unavailable) = .error .unavailable
    ∧ fetch_kategorie (.ok ⟨none⟩) = .ok []
    ∧ fetch_kategorie (.error .unavailable) ≠ .ok [] := by
  refine ⟨C6_fetch_propagation.1 .unavailable, ?_,
    C6_fetch_propagation.2.2.2.2.1 .unavailable []⟩
  simpa using C6_fetch_propagation.2.2.1 (⟨none⟩ : SupabaseResp Kategoria)

/-- C7 counterexample: `add_produkt` applies `int()`/`float()` but no sign
check, so the negative quantity -5 and price -1 reach storage negative,
refuting "coerces quantity to an integer ≥ 0 and unit_price to a
non-negative decimal" and "a negative input never reaches storage as a
negative value". -/
theorem C7_counterexample :
    (add_produkt "x" ((-5 : Int) : ℚ) (-1) none db0).produkty
      = [⟨1, "x", -5, -1, none⟩]
    ∧ (-5 : Int) < 0 := by
  constructor
  · show db0.produkty ++ [⟨db0.nextProdId, "x", pyInt ((-5 : Int) : ℚ), -1, none⟩]
        = [⟨1, "x", -5, -1, none⟩]
    rw [pyInt_intCast]
    rfl
  · decide

/-- C7 amended: `add_produkt` and `update_produkt` coerce quantity with
`int()` (truncation) and pass the decimal price through before persistence,
with `category_id` allowed to be null — but they preserve sign rather than
enforcing non-negativity: a stored quantity/price is non-negative exactly
when the argument is (the UI's numeric inputs, whose minimum is 0, are the
only guard keeping negative values out of storage). -/
theorem C7_coercion_amended (prod_id : Int) (nazwa : String) (liczba cena : ℚ)
    (kategoria_id : Option Int) (db : DB) :
    (add_produkt nazwa liczba cena kategoria_id db).produkty
      = db.produkty ++ [⟨db.nextProdId, nazwa, pyInt liczba, cena, kategoria_id⟩]
    ∧ (∀ n : Int, pyInt (n : ℚ) = n)
    ∧ (0 ≤ liczba → 0 ≤ pyInt liczba)
    ∧ (∀ p ∈ (update_produkt prod_id nazwa liczba cena kategoria_id db).produkty,
        p ∈ db.produkty
        ∨ (p.liczba = pyInt liczba ∧ p.cena = cena ∧ p.kategoria_id = kategoria_id)) := by
  refine ⟨rfl, pyInt_intCast, pyInt_nonneg liczba, ?_⟩
  intro p hp
  rw [update_produkt, List.mem_map] at hp
  obtain ⟨a, ha, hfa⟩ := hp
  by_cases hid : (a.id == prod_id) = true
  · rw [if_pos hid] at hfa
    right
    rw [← hfa]
    exact ⟨rfl, rfl, rfl⟩
  · rw [if_neg hid] at hfa
    exact Or.inl (hfa ▸ ha)

/-- Witness for C7: non-negative inputs are persisted non-negative. -/
theorem C7_coercion_amended_witness :
    (add_produkt "x" 3 2 none db0).produkty = [⟨1, "x", pyInt 3, 2, none⟩]
    ∧ (0 : Int) ≤ pyInt 3 := by
  have h := C7_coercion_amended 1 "x" 3 2 none db0
  exact ⟨by simpa [db0] using h.1, h.2.2.1 (by norm_num)⟩

/-- C8: every successful mutating UI step — add category, add product,
update product, delete product, delete category — clears the entire read
cache immediately, so the next read serves exactly the post-mutation tables;
a rejected form or a caught delete failure mutates nothing and is not a
successful mutation. -/
theorem C8_mutation_clears_cache (a : MutAction) (s s2 : AppState) :
    mutation_step a s = some s2 →
      s2.cache = none
      ∧ (cached_read s2).1 = (s2.db.kategorie, s2.db.produkty) := by
  intro h
  have hc : s2.cache = none := by
    cases a <;> simp only [mutation_step] at h <;>
      (try split at h) <;>
      first
        | exact Option.noConfusion h
        | (injection h with h2; rw [← h2]; rfl)
  refine ⟨hc, ?_⟩
  simp [cached_read, hc]

/-- Witness for C8: adding category "A" over a warm cache succeeds and
leaves the cache cleared. -/
theorem C8_mutation_clears_cache_witness :
    mutation_step (MutAction.addKat "A" "") ⟨db0, some ([], [])⟩
      = some ⟨add_kategoria "A" none db0, none⟩
    ∧ (⟨add_kategoria "A" none db0, none⟩ : AppState).cache = none := by
  have h : mutation_step (MutAction.addKat "A" "") ⟨db0, some ([], [])⟩
      = some ⟨add_kategoria "A" none db0, none⟩ := by
    rfl
  exact ⟨h, (C8_mutation_clears_cache (MutAction.addKat "A" "") ⟨db0, some ([], [])⟩
    ⟨add_kategoria "A" none db0, none⟩ h).1⟩

/-- C9: the pie share data maps each category name — a null name replaced by
the sentinel label "Brak kategorii" — to the summed line value of the rows
carrying that name, and it is computed exactly when the total value is
positive; otherwise the dashboard shows the empty-state indicator
(`none`). -/
theorem C9_dashboard_pie_spec (rows : List JoinedRow) :
    ((dashboard_pie rows).isSome ↔ 0 < (rows.map (fun r => r.wartosc)).sum)
    ∧ (∀ r : JoinedRow, r.kategoria = none → fill_kategoria r = "Brak kategorii")
    ∧ (∀ r : JoinedRow, ∀ n : String, r.kategoria = some n → fill_kategoria r = n)
    ∧ (∀ l, dashboard_pie rows = some l →
        ∀ n : String, n ∈ pie_names rows →
          (n, ((rows.filter (fun r => fill_kategoria r == n)).map (fun r => r.wartosc)).sum)
            ∈ l)
    ∧ (∀ l, dashboard_pie rows = some l →
        ∀ p ∈ l, p.1 ∈ pie_names rows ∧ p.2 = category_value_shares rows p.1) := by
  refine ⟨?_, ?_, ?_, ?_, ?_⟩
  · rcases rows with _ | ⟨r, rs⟩
    · simp [dashboard_pie]
    · by_cases hpos : (0:ℚ) < ((r :: rs).map (fun x => x.wartosc)).sum
      · simp [dashboard_pie, hpos]
      · simp [dashboard_pie, hpos]
  · intro r h
    simp [fill_kategoria, h]
  · intro r n h
    simp [fill_kategoria, h]
  · intro l hl n hn
    unfold dashboard_pie at hl
    split at hl
    · have hleq : l = (pie_names rows).map (fun m => (m, category_value_shares rows m)) := by
        injection hl with h2
        exact h2.symm
      subst hleq
      exact List.mem_map_of_mem _ hn
    · exact absurd hl (by simp)
  · intro l hl p hp
    unfold dashboard_pie at hl
    split at hl
    · have hleq : l = (pie_names rows).map (fun m => (m, category_value_shares rows m)) := by
        injection hl with h2
        exact h2.symm
      subst hleq
      rw [List.mem_map] at hp
      obtain ⟨m, hm, hmp⟩ := hp
      rw [← hmp]
      exact ⟨hm, rfl⟩
    · exact absurd hl (by simp)

/-- Witness for C9: the §8 rows have positive total value, so the share data
is computed for them. -/
theorem C9_dashboard_pie_spec_witness :
    (dashboard_pie rows_ex).isSome = true := by
  have hpos : (0:ℚ) < (rows_ex.map (fun r => r.wartosc)).sum := by
    norm_num [rows_ex, fetch_produkty_join, mkJoined, katMapGet, kats_ex, prods_ex]
  exact (C9_dashboard_pie_spec rows_ex).1.mpr hpos

/-- C10: the add-product view refuses to render the form at all when no
categories exist, and every product it does create carries `some` id of an
existing category — even though `add_produkt` itself accepts a null
`category_id` and would persist it as null. -/
theorem C10_dodaj_produkt_view_spec (kategorie : List Kategoria) (nazwa : String)
    (liczba cena : ℚ) (kat_name : String) (db : DB) :
    (kategorie = [] →
      dodaj_produkt_view kategorie nazwa liczba cena kat_name db = .noCategories)
    ∧ (∀ db2, dodaj_produkt_view kategorie nazwa liczba cena kat_name db = .added db2 →
        ∃ kid, kid ∈ kategorie.map (fun k => k.id)
          ∧ db2.produkty
              = db.produkty ++ [⟨db.nextProdId, pyStrip nazwa, pyInt liczba, cena, some kid⟩])
    ∧ (add_produkt nazwa liczba cena none db).produkty
        = db.produkty ++ [⟨db.nextProdId, nazwa, pyInt liczba, cena, none⟩] := by
  refine ⟨?_, ?_, rfl⟩
  · intro h
    subst h
    rfl
  · intro db2 h
    unfold dodaj_produkt_view at h
    by_cases hemp : kategorie.isEmpty
    · rw [if_pos hemp] at h
      exact absurd h (by simp)
    · rw [if_neg hemp] at h
      by_cases hname : (pyStrip nazwa) = ""
      · rw [if_pos hname] at h
        exact absurd h (by simp)
      · rw [if_neg hname] at h
        cases hfind : kat_options_get kategorie kat_name with
        | none =>
          rw [hfind] at h
          exact absurd h (by simp)
        | some kid =>
          rw [hfind] at h
          have hdb2 : db2 = add_produkt (pyStrip nazwa) liczba cena (some kid) db := by
            injection h with h2
            exact h2.symm
          subst hdb2
          refine ⟨kid, ?_, rfl⟩
          unfold kat_options_get at hfind
          obtain ⟨c, hc, hcid⟩ := Option.map_eq_some'.1 hfind
          have hcmem : c ∈ kategorie := List.mem_reverse.1 (List.mem_of_find?_eq_some hc)
          exact hcid ▸ List.mem_map_of_mem _ hcmem

/-- Witness for C10: with no categories the form is refused; with the §8
categories, submitting product "x" under category name "A" persists it with
the existing id 1. -/
theorem C10_dodaj_produkt_view_spec_witness :
    dodaj_produkt_view [] "x" 1 1 "A" db0 = AddProduktView.noCategories
    ∧ ∃ kid, kid ∈ kats_ex.map (fun k => k.id)
        ∧ (add_produkt (pyStrip "x") 1 1 (some 1) db0).produkty
            = db0.produkty ++ [⟨db0.nextProdId, pyStrip "x", pyInt 1, 1, some kid⟩] := by
  refine ⟨(C10_dodaj_produkt_view_spec [] "x" 1 1 "A" db0).1 rfl, ?_⟩
  have h : dodaj_produkt_view kats_ex "x" 1 1 "A" db0
      = AddProduktView.added (add_produkt (pyStrip "x") 1 1 (some 1) db0) := by
    rfl
  exact (C10_dodaj_produkt_view_spec kats_ex "x" 1 1 "A" db0).2.1
    (add_produkt (pyStrip "x") 1 1 (some 1) db0) h
